import Mathlib

/-!
Verification development for the browser video trimmer
(`video-timeline` / `video-upload` / `video-editor` components).

The relevant parts of the component code are shallowly embedded below:
numbers are modelled as rationals (`ℚ`), the few places where JS division
by zero matters use an explicit extended-number type `JsNum`, the async
trim pipeline is modelled as a pure function over an environment that
says which engine step (if any) throws, and React `setState` calls become
explicit record updates on a state record.
-/

namespace Trimflow

/-! Timeline coordinate mapping (video-timeline: `handleTimelineClick`,
`handleMarkerDrag`). -/

/-- JS `Math.max(0, Math.min(1, q))`. -/
def clamp01 (q : ℚ) : ℚ := max 0 (min 1 q)

/-- Time mapped by `handleTimelineClick`:
`x = clientX - rect.left; percentage = x / rect.width; time = percentage * duration`.
Note: no clamping is applied on this path. -/
def timelineClickTime (clientX left width duration : ℚ) : ℚ :=
  ((clientX - left) / width) * duration

/-- Time mapped by `handleMarkerDrag`:
`x = clientX - rect.left; percentage = Math.max(0, Math.min(1, x / rect.width)); time = percentage * duration`. -/
def markerDragTime (clientX left width duration : ℚ) : ℚ :=
  clamp01 ((clientX - left) / width) * duration

/-! Trim range and marker drags. -/

/-- The two trim markers (`startTime`/`endTime` state of the component). -/
structure TrimRange where
  startTime : ℚ
  endTime : ℚ
deriving DecidableEq

/-- One pointer-move event during an active marker drag: the pointer's
`clientX`, the timeline's bounding-box `left` and `width`, and which marker
is being dragged. -/
structure DragStep where
  clientX : ℚ
  left : ℚ
  width : ℚ
  isStart : Bool
deriving DecidableEq

/-- Body of `handleMarkerDrag`: recompute the mapped time, then
`setStartTime(Math.min(time, endTime - 0.1))` or
`setEndTime(Math.max(time, startTime + 0.1))`. -/
def applyDrag (duration : ℚ) (st : DragStep) (r : TrimRange) : TrimRange :=
  let time := markerDragTime st.clientX st.left st.width duration
  if st.isStart then
    { r with startTime := min time (r.endTime - 1/10) }
  else
    { r with endTime := max time (r.startTime + 1/10) }

/-- A whole drag session: fold the drag events over the range. -/
def runDrags (duration : ℚ) (steps : List DragStep) (r : TrimRange) : TrimRange :=
  steps.foldl (fun r st => applyDrag duration st r) r

/-- The range established by `handleLoadedMetadata`: `startTime` stays at its
initial value 0 and `setEndTime(videoDuration)`. -/
def initRange (duration : ℚ) : TrimRange := ⟨0, duration⟩

/-- The spec's TrimRange invariant: `0 ≤ start < end ≤ duration` and
`end − start ≥ 0.1`. -/
def rangeInv (duration : ℚ) (r : TrimRange) : Prop :=
  0 ≤ r.startTime ∧ r.startTime < r.endTime ∧ r.endTime ≤ duration ∧
    1/10 ≤ r.endTime - r.startTime

instance (d : ℚ) (r : TrimRange) : Decidable (rangeInv d r) := by
  unfold rangeInv; infer_instance

/-! Basic bounds for the clamped mapping. -/

theorem clamp01_nonneg (q : ℚ) : 0 ≤ clamp01 q := le_max_left 0 _

theorem clamp01_le_one (q : ℚ) : clamp01 q ≤ 1 :=
  max_le (by norm_num) (min_le_left 1 q)

theorem markerDragTime_nonneg (x l w d : ℚ) (hd : 0 ≤ d) :
    0 ≤ markerDragTime x l w d :=
  mul_nonneg (clamp01_nonneg _) hd

theorem markerDragTime_le (x l w d : ℚ) (hd : 0 ≤ d) :
    markerDragTime x l w d ≤ d := by
  have h := mul_le_mul_of_nonneg_right (clamp01_le_one ((x - l) / w)) hd
  simpa [markerDragTime] using h

/-- A single drag step preserves the range invariant when the duration is at
least the minimum range 0.1. -/
theorem rangeInv_applyDrag (d : ℚ) (st : DragStep) (r : TrimRange)
    (hinv : rangeInv d r) : rangeInv d (applyDrag d st r) := by
  obtain ⟨h0, hlt, hle, hgap⟩ := hinv
  have hd : 0 ≤ d := le_trans (le_of_lt (by linarith)) hle
  have ht0 : 0 ≤ markerDragTime st.clientX st.left st.width d :=
    markerDragTime_nonneg _ _ _ _ hd
  have htd : markerDragTime st.clientX st.left st.width d ≤ d :=
    markerDragTime_le _ _ _ _ hd
  unfold applyDrag
  by_cases hs : st.isStart = true
  · rw [if_pos hs]
    have hmin := min_le_right (markerDragTime st.clientX st.left st.width d)
      (r.endTime - 1/10)
    refine ⟨le_min ht0 (by linarith), ?_, hle, by linarith⟩
    exact lt_of_le_of_lt hmin (by linarith)
  · rw [if_neg hs]
    have hmax := le_max_right (markerDragTime st.clientX st.left st.width d)
      (r.startTime + 1/10)
    refine ⟨h0, ?_, max_le htd (by linarith), by linarith⟩
    exact lt_of_lt_of_le (by linarith) hmax

/-! Toast notifications (`useToast`). -/

/-- Toast variants used by the components: the default (informational)
variant and the `destructive` (error) variant. -/
inductive ToastVariant where
  | default
  | destructive
deriving DecidableEq

/-- A toast call: `toast({ title, description, variant })`. -/
structure Toast where
  title : String
  description : String
  variant : ToastVariant
deriving DecidableEq

/-! Thrown values and the trim pipeline. -/

/-- A JS thrown value as the catch block distinguishes it:
either an `Error` instance (carrying `.message`) or any other value. -/
inductive JsError where
  | errorObj (message : String)
  | other
deriving DecidableEq

/-- JS `error instanceof Error ? error.message : "Unknown error occurred"`. -/
def errMessage : JsError → String
  | .errorObj m => m
  | .other => "Unknown error occurred"

/-- One element of the argument list passed to `ffmpeg.exec`: either a
string literal or a serialized number (`startTime.toString()`). -/
inductive Arg where
  | lit (s : String)
  | num (q : ℚ)
deriving DecidableEq

/-- A call on the engine's virtual filesystem / runner, as performed by
`handleTrim`. -/
inductive EngineOp where
  | writeFile (name : String)
  | exec (args : List Arg)
  | readFile (name : String)
  | deleteFile (name : String)
deriving DecidableEq

/-- The output blob: `new Blob([data], { type: ... })`; only its MIME type
tag matters here. -/
structure Blob where
  type : String
deriving DecidableEq

/-- The component state touched by `handleTrim` / `handleDownload`:
`isProcessing`, `trimmedVideoUrl` (the artifact handle: an object URL over
the output blob), and `processingProgress`. -/
structure TrimState where
  isProcessing : Bool
  trimmedVideoUrl : Option Blob
  processingProgress : ℕ
deriving DecidableEq

/-- Environment for one `handleTrim` run: for each awaited engine step,
whether it throws (and what); plus the integer percentages reported by the
progress callback during `exec`. -/
structure TrimEnv where
  writeFile : Option JsError
  exec : Option JsError
  readFile : Option JsError
  deleteInput : Option JsError
  deleteOutput : Option JsError
  progressUpdates : List ℕ
deriving DecidableEq

/-- The environment in which every engine step succeeds and no progress
callback fires. -/
def TrimEnv.ok : TrimEnv := ⟨none, none, none, none, none, []⟩

/-- The named points at which a `handleTrim` run can throw inside the
`try` block. -/
inductive FailPoint where
  | atWrite
  | atExec
  | atRead
  | atDeleteInput
  | atDeleteOutput
deriving DecidableEq

/-- The environment in which exactly one engine step throws `e` and all
earlier steps succeed. -/
def envFailingAt : FailPoint → JsError → TrimEnv
  | .atWrite, e => { TrimEnv.ok with writeFile := some e }
  | .atExec, e => { TrimEnv.ok with exec := some e }
  | .atRead, e => { TrimEnv.ok with readFile := some e }
  | .atDeleteInput, e => { TrimEnv.ok with deleteInput := some e }
  | .atDeleteOutput, e => { TrimEnv.ok with deleteOutput := some e }

/-- Semantics of JS `String.prototype.split` with a one-character separator,
over the string's character list: `"" -> [""]`, empty segments kept, the
separator never part of a segment. -/
def splitChar (sep : Char) : List Char → List (List Char)
  | [] => [[]]
  | c :: cs =>
    if c = sep then [] :: splitChar sep cs
    else
      match splitChar sep cs with
      | [] => [[c]]
      | p :: ps => (c :: p) :: ps

/-- Embedding of `videoFile.filename.split(".").pop()?.toLowerCase() || "mp4"`:
the last dot-separated segment, lowercased, defaulting to `mp4` when that
segment is the empty string. -/
def fileExtension (filename : String) : String :=
  let ext := String.mk (((splitChar '.' filename.toList).getLastD []).map Char.toLower)
  if ext = "" then "mp4" else ext

/-- The argument list built for `ffmpeg.exec` in `handleTrim`. -/
def ffmpegArgs (startT endT : ℚ) (inputFileName outputFileName : String) : List Arg :=
  [.lit "-ss", .num startT, .lit "-to", .num endT, .lit "-i", .lit inputFileName,
   .lit "-c", .lit "copy", .lit "-avoid_negative_ts", .lit "make_zero",
   .lit outputFileName]

/-- Result of the `try` block of `handleTrim`: the state and toasts produced
so far, the engine calls attempted (in order, a throwing call included), and
the exception escaping the block, if any. -/
structure TryOutcome where
  state : TrimState
  toasts : List Toast
  ops : List EngineOp
  thrown : Option JsError
deriving DecidableEq

/-- Success toast `toast({ title: "Video trimmed successfully", ... })`. -/
def successToast : Toast :=
  ⟨"Video trimmed successfully", "Your video is ready to download", .default⟩

/-- The `try` block of `handleTrim`, entered with state `s`: derive the
input/output names from the filename extension, check `videoFile.data`,
stage the input, run the cut, read the output and construct the blob, emit
the success toast, then delete the two staged files. Each awaited step may
throw, aborting the rest of the block. -/
def tryTrim (hasData : Bool) (filename : String) (startT endT : ℚ)
    (env : TrimEnv) (s : TrimState) : TryOutcome :=
  let fileExt := fileExtension filename
  let inputFileName := "input." ++ fileExt
  let outputFileName := "output." ++ fileExt
  if !hasData then
    ⟨s, [], [], some (.errorObj ("Video data not available. Please re-upload the video."))⟩
  else
    match env.writeFile with
    | some e => ⟨s, [], [.writeFile inputFileName], some e⟩
    | none =>
      let sProg :=
        { s with processingProgress :=
            env.progressUpdates.foldl (fun _ p => p) s.processingProgress }
      let opsToExec := [EngineOp.writeFile inputFileName,
        EngineOp.exec (ffmpegArgs startT endT inputFileName outputFileName)]
      match env.exec with
      | some e => ⟨sProg, [], opsToExec, some e⟩
      | none =>
        match env.readFile with
        | some e => ⟨sProg, [], opsToExec ++ [.readFile outputFileName], some e⟩
        | none =>
          let blob : Blob := ⟨"video/" ++ fileExt⟩
          let s2 := { sProg with
            trimmedVideoUrl := some blob
            isProcessing := false
            processingProgress := 100 }
          let ops3 := opsToExec ++ [EngineOp.readFile outputFileName]
          match env.deleteInput with
          | some e => ⟨s2, [successToast], ops3 ++ [.deleteFile inputFileName], some e⟩
          | none =>
            match env.deleteOutput with
            | some e =>
              ⟨s2, [successToast],
                ops3 ++ [.deleteFile inputFileName, .deleteFile outputFileName], some e⟩
            | none =>
              ⟨s2, [successToast],
                ops3 ++ [.deleteFile inputFileName, .deleteFile outputFileName], none⟩

/-- Overall outcome of one `handleTrim` call. -/
structure TrimOutcome where
  state : TrimState
  toasts : List Toast
  ops : List EngineOp
deriving DecidableEq

/-- Loading toast `toast({ title: "Please wait", description: "Video editor is still loading" })`. -/
def pleaseWaitToast : Toast := ⟨"Please wait", "Video editor is still loading", .default⟩

/-- Embedding of `handleTrim`: guard on `!ffmpegRef.current || !ffmpegLoaded`; then
`setIsProcessing(true); setTrimmedVideoUrl(null); setProcessingProgress(0)`;
then the `try` block; the `catch` block emits the destructive failure toast
with the error's message and resets `isProcessing` and the progress. -/
def handleTrim (refSet loaded hasData : Bool) (filename : String)
    (startT endT : ℚ) (env : TrimEnv) (s : TrimState) : TrimOutcome :=
  if !refSet || !loaded then
    ⟨s, [pleaseWaitToast], []⟩
  else
    let s1 := { s with
      isProcessing := true
      trimmedVideoUrl := none
      processingProgress := 0 }
    let t := tryTrim hasData filename startT endT env s1
    match t.thrown with
    | none => ⟨t.state, t.toasts, t.ops⟩
    | some e =>
      ⟨{ t.state with isProcessing := false, processingProgress := 0 },
        t.toasts ++ [⟨"Failed to trim video", errMessage e, .destructive⟩],
        t.ops⟩

/-! Download (`handleDownload`). -/

/-- What a `handleDownload` call triggers: the `link.download` filenames
clicked, and the toasts emitted. -/
structure DownloadOutcome where
  downloads : List String
  toasts : List Toast
deriving DecidableEq

/-- Embedding of `handleDownload`: return early if `trimmedVideoUrl` is null; otherwise
click a transient anchor with `download = trimmed-<filename>` and emit the
"Download started" toast. -/
def handleDownload (trimmedVideoUrl : Option Blob) (filename : String) :
    DownloadOutcome :=
  match trimmedVideoUrl with
  | none => ⟨[], []⟩
  | some _ =>
    ⟨["trimmed-" ++ filename],
      [⟨"Download started", "Your trimmed video is being downloaded", .default⟩]⟩

/-! Upload-side container data (video-upload). -/

/-- List `acceptedFormats` of the upload component. -/
def acceptedFormats : List String :=
  ["video/mp4", "video/quicktime", "video/x-msvideo"]

/-- List `acceptedExtensions` of the upload component. -/
def acceptedExtensions : List String := [".mp4", ".mov", ".avi"]

/-- The container MIME type associated with each accepted extension, as the
two parallel accept lists of the upload component pair them
(`.mp4` ↔ `video/mp4`, `.mov` ↔ `video/quicktime`, `.avi` ↔ `video/x-msvideo`). -/
def extMime : String → Option String
  | "mp4" => some ("video/mp4")
  | "mov" => some ("video/quicktime")
  | "avi" => some ("video/x-msvideo")
  | _ => none

/-! JS number semantics for the derived percentages. -/

/-- A JS number as far as the percentage computation needs it: a finite
value, `NaN`, or a signed infinity. -/
inductive JsNum where
  | num (q : ℚ)
  | nan
  | posInf
  | negInf
deriving DecidableEq

/-- Finiteness of a JS number. -/
def JsNum.isFinite : JsNum → Bool
  | .num _ => true
  | _ => false

/-- JS division on `JsNum`, with the IEEE-754 rules for zero denominators:
`0/0 = NaN`, `x/0 = ±Infinity` for `x ≠ 0`. -/
def jsDiv : JsNum → JsNum → JsNum
  | .num a, .num b =>
    if b = 0 then
      if a = 0 then .nan else if 0 < a then .posInf else .negInf
    else .num (a / b)
  | .nan, _ => .nan
  | _, .nan => .nan
  | .posInf, .posInf => .nan
  | .posInf, .negInf => .nan
  | .negInf, .posInf => .nan
  | .negInf, .negInf => .nan
  | .posInf, .num b => if 0 ≤ b then .posInf else .negInf
  | .negInf, .num b => if 0 ≤ b then .negInf else .posInf
  | .num _, .posInf => .num 0
  | .num _, .negInf => .num 0

/-- JS multiplication on `JsNum` (`±Infinity × 0 = NaN`). -/
def jsMul : JsNum → JsNum → JsNum
  | .num a, .num b => .num (a * b)
  | .nan, _ => .nan
  | _, .nan => .nan
  | .posInf, .posInf => .posInf
  | .posInf, .negInf => .negInf
  | .negInf, .posInf => .negInf
  | .negInf, .negInf => .posInf
  | .posInf, .num b => if b = 0 then .nan else if 0 < b then .posInf else .negInf
  | .negInf, .num b => if b = 0 then .nan else if 0 < b then .negInf else .posInf
  | .num a, .posInf => if a = 0 then .nan else if 0 < a then .posInf else .negInf
  | .num a, .negInf => if a = 0 then .nan else if 0 < a then .negInf else .posInf

/-- The derived visual position: `(time / duration) * 100`, with no guard on
`duration` (used for `startPercentage`, `endPercentage`, `currentPercentage`). -/
def percentageOf (time duration : JsNum) : JsNum :=
  jsMul (jsDiv time duration) (.num 100)

/-- The component state before any trim: not processing, no artifact,
progress 0. -/
def initialTrimState : TrimState := ⟨false, none, 0⟩

/-! Claims. -/

/-- C1 (counterexample): when the cut itself throws, the failure-path run
performs no deletion of the staged input or output virtual files at all, so
cleanup is not attempted "on the success path and on the failure path
alike". -/
theorem c1_cleanup_counterexample :
    ¬ (EngineOp.deleteFile ("input.mp4") ∈
          (handleTrim true true true ("video.mp4") 0 1
            (envFailingAt .atExec (.errorObj ("boom"))) initialTrimState).ops ∧
        EngineOp.deleteFile ("output.mp4") ∈
          (handleTrim true true true ("video.mp4") 0 1
            (envFailingAt .atExec (.errorObj ("boom"))) initialTrimState).ops) := by
  decide

/-- C1 (amended): cleanup of the two staged virtual files is attempted only
on the success path (both deletions then occur, after the success toast);
when staging, cutting, or retrieval throws, no deletion is attempted; and a
failure of the cleanup itself is not swallowed: it is caught by the shared
handler and surfaced as a destructive failure toast, with progress reset. -/
theorem c1_cleanup_success_only (fn : String) (st en : ℚ) (s : TrimState)
    (m : String) :
    (handleTrim true true true fn st en TrimEnv.ok s).ops
        = [.writeFile ("input." ++ fileExtension fn),
           .exec (ffmpegArgs st en ("input." ++ fileExtension fn)
             ("output." ++ fileExtension fn)),
           .readFile ("output." ++ fileExtension fn),
           .deleteFile ("input." ++ fileExtension fn),
           .deleteFile ("output." ++ fileExtension fn)] ∧
    (handleTrim true true true fn st en
        (envFailingAt .atWrite (.errorObj m)) s).ops
        = [.writeFile ("input." ++ fileExtension fn)] ∧
    (handleTrim true true true fn st en
        (envFailingAt .atExec (.errorObj m)) s).ops
        = [.writeFile ("input." ++ fileExtension fn),
           .exec (ffmpegArgs st en ("input." ++ fileExtension fn)
             ("output." ++ fileExtension fn))] ∧
    (handleTrim true true true fn st en
        (envFailingAt .atRead (.errorObj m)) s).ops
        = [.writeFile ("input." ++ fileExtension fn),
           .exec (ffmpegArgs st en ("input." ++ fileExtension fn)
             ("output." ++ fileExtension fn)),
           .readFile ("output." ++ fileExtension fn)] ∧
    (handleTrim true true true fn st en
        (envFailingAt .atDeleteInput (.errorObj m)) s).ops
        = [.writeFile ("input." ++ fileExtension fn),
           .exec (ffmpegArgs st en ("input." ++ fileExtension fn)
             ("output." ++ fileExtension fn)),
           .readFile ("output." ++ fileExtension fn),
           .deleteFile ("input." ++ fileExtension fn)] ∧
    (handleTrim true true true fn st en
        (envFailingAt .atDeleteInput (.errorObj m)) s).toasts
        = [successToast, ⟨"Failed to trim video", m, .destructive⟩] ∧
    (handleTrim true true true fn st en
        (envFailingAt .atDeleteInput (.errorObj m)) s).state.processingProgress
        = 0 := by
  refine ⟨?_, ?_, ?_, ?_, ?_, ?_, ?_⟩ <;>
    simp [handleTrim, tryTrim, envFailingAt, TrimEnv.ok, errMessage]

/-- C2 (counterexample): the click-to-seek path applies no clamping, so with
the pointer outside the element (x − left = 150, width = 100) and duration
10 the mapped time is 15, not the clamped 10, and lies outside [0, 10]. -/
theorem c2_click_counterexample :
    timelineClickTime 150 0 100 10 = 15 ∧
    timelineClickTime 150 0 100 10 ≠ clamp01 ((150 - 0) / 100) * 10 ∧
    ¬ timelineClickTime 150 0 100 10 ≤ 10 := by
  norm_num [timelineClickTime, clamp01]

/-- C2 (amended): the marker-drag path maps the pointer exactly to
`clamp((x − left)/width, 0, 1) × D`, always landing in [0, D]; the
click-to-seek path uses the unclamped fraction `(x − left)/width × D` and
can therefore leave [0, D]. -/
theorem c2_pointer_mapping (x l w d : ℚ) (hd : 0 ≤ d) :
    markerDragTime x l w d = clamp01 ((x - l) / w) * d ∧
    0 ≤ markerDragTime x l w d ∧ markerDragTime x l w d ≤ d ∧
    timelineClickTime x l w d = ((x - l) / w) * d :=
  ⟨rfl, markerDragTime_nonneg x l w d hd, markerDragTime_le x l w d hd, rfl⟩

/-- Witness for C2, at pointer x = 150 over a box of width 100 and
duration 10. -/
theorem c2_pointer_mapping_witness :
    markerDragTime 150 0 100 10 = clamp01 ((150 - 0) / 100) * 10 ∧
    0 ≤ markerDragTime 150 0 100 10 ∧ markerDragTime 150 0 100 10 ≤ 10 ∧
    timelineClickTime 150 0 100 10 = ((150 - 0) / 100) * 10 :=
  c2_pointer_mapping 150 0 100 10 (by norm_num)

/-- C3 (counterexample): with duration 1/20 (< 0.1 s), a single drag of the
start marker to the right edge puts the start at −1/20, violating
`0 ≤ start < end ≤ duration ∧ end − start ≥ 0.1`; so the invariant does not
hold for arbitrary durations. -/
theorem c3_tiny_duration_counterexample :
    ¬ rangeInv (1/20)
        (runDrags (1/20) [⟨100, 0, 100, true⟩] (initRange (1/20))) := by
  intro h
  obtain ⟨h0, -, -, -⟩ := h
  norm_num [runDrags, applyDrag, markerDragTime, clamp01, initRange,
    List.foldl_cons, List.foldl_nil, min_def, max_def] at h0

/-- Drag sequences preserve the range invariant. -/
theorem rangeInv_runDrags (d : ℚ) (steps : List DragStep) (r : TrimRange)
    (h : rangeInv d r) : rangeInv d (runDrags d steps r) := by
  induction steps generalizing r with
  | nil => exact h
  | cons st rest ih => exact ih (applyDrag d st r) (rangeInv_applyDrag d st r h)

/-- C3 (amended): for every duration of at least the minimum range (0.1 s)
and every sequence of marker drags (with the timeline box of positive width)
starting from the range established when metadata resolves, the invariant
`0 ≤ start < end ≤ duration ∧ end − start ≥ 0.1` holds after each drag
step. -/
theorem c3_drag_invariant (d : ℚ) (steps : List DragStep) (hd : 1/10 ≤ d)
    (hw : ∀ st ∈ steps, 0 < st.width) :
    rangeInv d (runDrags d steps (initRange d)) := by
  have hinit : rangeInv d (initRange d) :=
    ⟨le_refl 0, by simpa [initRange] using lt_of_lt_of_le (by norm_num) hd,
      le_refl d, by simpa [initRange] using hd⟩
  exact rangeInv_runDrags d steps (initRange d) hinit

/-- Witness for C3: one drag of the start marker past the right edge on a
1-second video keeps the invariant. -/
theorem c3_drag_invariant_witness :
    rangeInv 1 (runDrags 1 [⟨150, 0, 100, true⟩] (initRange 1)) :=
  c3_drag_invariant 1 [⟨150, 0, 100, true⟩] (by norm_num) (by decide)

/-- C4 (confirmed): each drag step sets the dragged marker to exactly the
other bound offset by 0.1 when the mapped time crosses it, and to the
mapped time otherwise. -/
theorem c4_marker_clamp_exact (d : ℚ) (st : DragStep) (r : TrimRange) :
    applyDrag d st r =
      if st.isStart then
        { r with startTime :=
            if r.endTime - 1/10 < markerDragTime st.clientX st.left st.width d
            then r.endTime - 1/10
            else markerDragTime st.clientX st.left st.width d }
      else
        { r with endTime :=
            if markerDragTime st.clientX st.left st.width d < r.startTime + 1/10
            then r.startTime + 1/10
            else markerDragTime st.clientX st.left st.width d } := by
  unfold applyDrag
  by_cases hs : st.isStart = true
  · rw [if_pos hs, if_pos hs]
    simp only [TrimRange.mk.injEq, and_true]
    rw [min_def]
    split_ifs with h1 h2 h2 <;> first | rfl | linarith
  · rw [if_neg hs, if_neg hs]
    simp only [TrimRange.mk.injEq, true_and]
    rw [max_def]
    split_ifs with h1 h2 h2 <;> first | rfl | linarith

/-- C5 (counterexample): a successful trim of an accepted `.mov` file (MIME
`video/quicktime`) produces a blob typed `video/mov`, which is not the
original container's MIME type. -/
theorem c5_mov_type_counterexample :
    (handleTrim true true true ("clip.mov") 0 1 TrimEnv.ok
        initialTrimState).state.trimmedVideoUrl = some ⟨"video/mov"⟩ ∧
    extMime ("mov") = some ("video/quicktime") ∧
    ("video/mov" : String) ≠ "video/quicktime" := by
  exact ⟨by decide, by decide, by decide⟩

/-- C5 (amended): the output blob's type is `video/<extension>`, with the
extension taken from the filename; across the three accepted containers this
coincides with the input container's MIME type exactly for mp4, and differs
for quicktime (`video/mov`) and x-msvideo (`video/avi`). -/
theorem c5_blob_type_from_extension (fn : String) (st en : ℚ) (s : TrimState)
    (h : fileExtension fn ∈ (["mp4", "mov", "avi"] : List String)) :
    (handleTrim true true true fn st en TrimEnv.ok s).state.trimmedVideoUrl
        = some ⟨"video/" ++ fileExtension fn⟩ ∧
    (extMime (fileExtension fn) = some ("video/" ++ fileExtension fn)
        ↔ fileExtension fn = "mp4") := by
  constructor
  · simp [handleTrim, tryTrim, TrimEnv.ok]
  · simp only [List.mem_cons, List.not_mem_nil, or_false] at h
    rcases h with h | h | h <;> rw [h] <;> decide

/-- Witness for C5, on the accepted filename `clip.mov`. -/
theorem c5_blob_type_from_extension_witness :
    (handleTrim true true true ("clip.mov") 0 1 TrimEnv.ok
        initialTrimState).state.trimmedVideoUrl
        = some ⟨"video/" ++ fileExtension ("clip.mov")⟩ ∧
    (extMime (fileExtension ("clip.mov"))
        = some ("video/" ++ fileExtension ("clip.mov"))
        ↔ fileExtension ("clip.mov") = "mp4") :=
  c5_blob_type_from_extension ("clip.mov") 0 1 initialTrimState (by decide)

/-- C6 (confirmed): a successful trim stages the input under
`input.<extension>`, invokes the engine with exactly
`["-ss", start, "-to", end, "-i", input.<ext>, "-c", "copy",
"-avoid_negative_ts", "make_zero", output.<ext>]`, reads the output back
and deletes both staged files. -/
theorem c6_exec_args_exact (fn : String) (st en : ℚ) (s : TrimState) :
    (handleTrim true true true fn st en TrimEnv.ok s).ops =
      [EngineOp.writeFile ("input." ++ fileExtension fn),
       EngineOp.exec
         [.lit "-ss", .num st, .lit "-to", .num en, .lit "-i",
          .lit ("input." ++ fileExtension fn), .lit "-c", .lit "copy",
          .lit "-avoid_negative_ts", .lit "make_zero",
          .lit ("output." ++ fileExtension fn)],
       EngineOp.readFile ("output." ++ fileExtension fn),
       EngineOp.deleteFile ("input." ++ fileExtension fn),
       EngineOp.deleteFile ("output." ++ fileExtension fn)] := by
  simp [handleTrim, tryTrim, TrimEnv.ok, ffmpegArgs]

/-- C7 (confirmed): triggering a trim while the engine is not loaded emits
only the non-destructive "Please wait" toast, performs no engine call, and
leaves the whole state (processing flag, progress, prior artifact)
unchanged. -/
theorem c7_not_loaded_no_op (refSet hasData : Bool) (fn : String)
    (st en : ℚ) (env : TrimEnv) (s : TrimState) :
    handleTrim refSet false hasData fn st en env s
      = ⟨s, [⟨"Please wait", "Video editor is still loading", .default⟩], []⟩ := by
  simp [handleTrim, pleaseWaitToast]

/-- C8 (confirmed): whenever a trim run throws — at any engine step, with an
`Error` carrying message `m`, or at the missing-data check with its fixed
message — the run ends with the processing flag cleared, the progress reset
to 0, and a destructive toast whose description is the error message
verbatim. -/
theorem c8_failure_outcome (p : FailPoint) (m : String) (fn : String)
    (st en : ℚ) (env : TrimEnv) (s : TrimState) :
    ((handleTrim true true true fn st en (envFailingAt p (.errorObj m))
          s).state.isProcessing = false ∧
      (handleTrim true true true fn st en (envFailingAt p (.errorObj m))
          s).state.processingProgress = 0 ∧
      (⟨"Failed to trim video", m, .destructive⟩ : Toast) ∈
        (handleTrim true true true fn st en (envFailingAt p (.errorObj m))
          s).toasts) ∧
    ((handleTrim true true false fn st en env s).state.isProcessing = false ∧
      (handleTrim true true false fn st en env s).state.processingProgress = 0 ∧
      (⟨"Failed to trim video",
          "Video data not available. Please re-upload the video.",
          .destructive⟩ : Toast) ∈
        (handleTrim true true false fn st en env s).toasts) := by
  constructor
  · cases p <;>
      simp [handleTrim, tryTrim, envFailingAt, TrimEnv.ok, errMessage]
  · simp [handleTrim, tryTrim, errMessage]

/-- C9 (confirmed): with no trimmed artifact the download action triggers
nothing and emits nothing; with an artifact it triggers exactly one download
named `trimmed-<originalFilename>`. -/
theorem c9_download_behavior (fn : String) (b : Blob) :
    handleDownload none fn = ⟨[], []⟩ ∧
    (handleDownload (some b) fn).downloads = ["trimmed-" ++ fn] :=
  ⟨rfl, rfl⟩

/-- C10 (confirmed): the derived percentages `(time/duration)×100` carry no
guard on the duration: while duration = 0 they are non-finite (0/0 giving
NaN), and for any duration > 0 and marker time within [0, duration] they
equal `time/duration×100`, which lies in [0, 100]. -/
theorem c10_percentage_semantics (t d u : ℚ) (hd : 0 < d) (h0 : 0 ≤ t)
    (h1 : t ≤ d) :
    percentageOf (.num 0) (.num 0) = .nan ∧
    (percentageOf (.num u) (.num 0)).isFinite = false ∧
    percentageOf (.num t) (.num d) = .num (t / d * 100) ∧
    0 ≤ t / d * 100 ∧ t / d * 100 ≤ 100 := by
  refine ⟨rfl, ?_, ?_, ?_, ?_⟩
  · rcases lt_trichotomy u 0 with h | h | h
    · simp [percentageOf, jsDiv, jsMul, JsNum.isFinite, h.ne, not_lt.mpr h.le]
    · simp [percentageOf, jsDiv, jsMul, JsNum.isFinite, h]
    · simp [percentageOf, jsDiv, jsMul, JsNum.isFinite, h.ne', h]
  · simp [percentageOf, jsDiv, jsMul, hd.ne']
  · exact mul_nonneg (div_nonneg h0 hd.le) (by norm_num)
  · have hle : t / d ≤ 1 := (div_le_one hd).mpr h1
    have := mul_le_mul_of_nonneg_right hle (by norm_num : (0:ℚ) ≤ 100)
    simpa using this

/-- Witness for C10, at time 1, duration 2, and stray time 5 over a zero
duration. -/
theorem c10_percentage_semantics_witness :
    percentageOf (.num 0) (.num 0) = .nan ∧
    (percentageOf (.num 5) (.num 0)).isFinite = false ∧
    percentageOf (.num 1) (.num 2) = .num (1 / 2 * 100) ∧
    0 ≤ (1:ℚ) / 2 * 100 ∧ (1:ℚ) / 2 * 100 ≤ 100 :=
  c10_percentage_semantics 1 2 5 (by norm_num) (by norm_num) (by norm_num)

end Trimflow
